import Mathlib

/-!
Verification of the Vector.spine serial-link protocol implementation
(src/src/spine.h, src/src/spine.cpp, src/src/listener.cpp).

The byte-level state is embedded shallowly: the per-direction receive buffer
becomes an explicit list of bytes threaded through each operation, the serial
stream becomes a list of pending bytes, and each C++ function becomes a Lean
function over those.  Machine integers are Nat with explicit reductions
modulo 256 or 65536 where the C code truncates.
-/

set_option maxRecDepth 40000

namespace VectorSpine

/-- Sync byte, from the anonymous enum in spine.cpp. -/
def sync : Nat := 0xAA

/-- Offset of the message type, from the anonymous enum in spine.cpp. -/
def message_type_ofs : Nat := 4

/-- Offset of the payload size, from the enum in spine.h. -/
def payload_size_ofs : Nat := 6

/-- Offset of the payload, from the enum in spine.h. -/
def payload_ofs : Nat := 8

/-- A receive buffer is a list of bytes (each entry a Nat below 256). -/
abbrev Buffer := List Nat

/-- Size of each direction's recv_buffer: 1028 + payload_ofs + 4 bytes. -/
def bufSize : Nat := 1028 + payload_ofs + 4

/-- The recv_buffer in its initial state: a C global array is zero-initialized. -/
def initBuffer : Buffer := List.replicate bufSize 0

/-- Read one byte of a buffer (out-of-range reads yield 0 in the model). -/
def getByte (b : Buffer) (i : Nat) : Nat := b.getD i 0

/-- Store one byte in a buffer (out-of-range writes are dropped in the model). -/
def setByte (b : Buffer) (i v : Nat) : Buffer := b.set i v

/-- Read a 16-bit little-endian value at a byte offset, as the C code does
when it dereferences a uint16_t pointer on its little-endian host. -/
def le16 (b : Buffer) (i : Nat) : Nat := getByte b i + 256 * getByte b (i + 1)

/-- Read a 32-bit little-endian value at a byte offset. -/
def le32 (b : Buffer) (i : Nat) : Nat := le16 b i + 65536 * le16 b (i + 2)

/-- Store a 16-bit value at a byte offset in little-endian order. -/
def writeLe16 (b : Buffer) (ofs v : Nat) : Buffer :=
  setByte (setByte b ofs (v % 256)) (ofs + 1) (v / 256 % 256)

/-- Store a 32-bit value at a byte offset in little-endian order. -/
def writeLe32 (b : Buffer) (ofs v : Nat) : Buffer :=
  setByte (setByte (setByte (setByte b ofs (v % 256))
    (ofs + 1) (v / 256 % 256)) (ofs + 2) (v / 65536 % 256))
    (ofs + 3) (v / 16777216 % 256)

/-- Copy a list of bytes into the buffer starting at a given offset
(the memcpy in DataCharacterMsg). -/
def writeBytes : Buffer → Nat → List Nat → Buffer
  | b, _, [] => b
  | b, ofs, x :: xs => writeBytes (setByte b ofs (x % 256)) (ofs + 1) xs

/-- The value stored by recv_buffer[offset] = in.read(): the next stream byte,
or 0xFF when the stream is exhausted, because the int -1 returned by read()
is truncated to the uint8_t 0xFF by the assignment. -/
def streamHead : List Nat → Nat
  | [] => 0xFF
  | x :: _ => x % 256

/-- The stream remaining after one in.read() call. -/
def streamTail : List Nat → List Nat
  | [] => []
  | _ :: s => s

/-- The buffer after in.readBytes(recv_buffer + ofs, n): the next n stream
bytes are stored from offset ofs on; if the stream runs out early the
remaining buffer bytes are left untouched (as in the test MockStream). -/
def fillBytes : Buffer → Nat → Nat → List Nat → Buffer
  | b, _, 0, _ => b
  | b, _, _ + 1, [] => b
  | b, ofs, n + 1, x :: s => fillBytes (setByte b ofs (x % 256)) (ofs + 1) n s

/-- One bit-step of the reflected CRC-32 register update
(IEEE polynomial, reflected form 0xEDB88320). -/
def crcStep (r : Nat) : Nat :=
  if r % 2 = 1 then Nat.xor (r / 2) 0xEDB88320 else r / 2

/-- Absorb one byte into the CRC-32 register. -/
def crcByte (r b : Nat) : Nat := crcStep^[8] (Nat.xor r (b % 256))

/-- Modelled from the spec: the CRC routine is the external esp32 ROM
function crc32_le, which is not part of this repository; both spine.cpp and
listener.cpp invoke it with the all-ones value as its first argument.  Per
the spec this computes CRC32 with reflected input and output, the IEEE
polynomial, initial register 0xFFFFFFFF and no final XOR, over the given
bytes. -/
def crc32 (data : List Nat) : Nat := data.foldl crcByte 0xFFFFFFFF

/-- The byte list the CRC is computed over: payload_size buffer bytes
starting at payload_ofs. -/
def payloadBytes (b : Buffer) (n : Nat) : List Nat :=
  (List.range n).map (fun i => getByte b (payload_ofs + i))

/- MessageType codes, from enum class MessageType in spine.h. -/

/-- MessageType dataCharacter. -/
def dataCharacter : Nat := 0x6364

/-- MessageType dataFrame. -/
def dataFrame : Nat := 0x6466

/-- MessageType shutdown. -/
def shutdownMsg : Nat := 0x6473

/-- MessageType updateFirmware. -/
def updateFirmware : Nat := 0x6675

/-- MessageType mode. -/
def mode : Nat := 0x6D64

/-- MessageType version. -/
def version : Nat := 0x7276

/-- MessageType lights. -/
def lights : Nat := 0x736C

/-- MessageType validate. -/
def validate : Nat := 0x7374

/-- MessageType erase. -/
def eraseMsg : Nat := 0x7878

/-- MessageType bootFrame. -/
def bootFrame : Nat := 0x6662

/-- MessageType ack. -/
def ack : Nat := 0x6B61

/-- MessageType VS. -/
def VS : Nat := 0x7376

/-- Result of ReceiveMessage: the returned MessageType (as the Int underlying
the C enum, -1 the invalid sentinel), the payload_size reference parameter
after the call, the buffer after the call, and the unconsumed stream. -/
structure RecvResult where
  msgType : Int
  payload_size : Nat
  buf : Buffer
  rest : List Nat

namespace H2B

/-- H2B::size from spine.cpp: payload size table for head-to-body messages,
-1 for an unrecognized command. -/
def size (command : Nat) : Int :=
  if command = dataCharacter then 32
  else if command = dataFrame then 64
  else if command = shutdownMsg then 0
  else if command = updateFirmware then 1028
  else if command = mode then 0
  else if command = version then 0
  else if command = lights then 16
  else if command = validate then 0
  else if command = eraseMsg then 0
  else -1

/-- H2B::populateHeader from spine.cpp: writes sync byte, the tag letters
H 2 B, the 16-bit message type and 16-bit size (both truncated, little
endian); payload_size is a size_t (32 bits on the target), so the Int from
the size table is reduced modulo 2 to the 32.  Returns the written buffer
and the returned payload_size. -/
def populateHeader (buffer : Buffer) (message_type : Nat) : Buffer × Nat :=
  let b := setByte buffer 0 0xAA
  let b := setByte b 1 72
  let b := setByte b 2 50
  let b := setByte b 3 66
  let b := writeLe16 b message_type_ofs (message_type % 65536)
  let payload_size : Nat := ((size message_type) % (2 ^ 32 : Int)).toNat
  let b := writeLe16 b payload_size_ofs (payload_size % 65536)
  (b, payload_size)

/-- H2B::DataCharacterMsg from spine.cpp: populates the header, copies at
most 31 text bytes into the payload, appends a NUL, computes the CRC over
the full 32-byte payload and stores it little-endian at offset
payload_ofs + payload_size + 4.  Returns the buffer and the payload size. -/
def DataCharacterMsg (buf : Buffer) (text : List Nat) (numBytes : Nat) : Buffer × Nat :=
  let b := (populateHeader buf dataCharacter).1
  let n := min numBytes 31
  let b := writeBytes b payload_ofs (text.take n)
  let b := setByte b (payload_ofs + n) 0
  let payload_size : Nat := (size dataCharacter).toNat
  let crc := crc32 (payloadBytes b payload_size)
  let b := writeLe32 b (payload_ofs + payload_size + 4) crc
  (b, payload_size)

/-- H2B::ReceiveMessage from spine.cpp.  The four waitFor steps store each
read byte at offsets 0 to 3 and return the sentinel on the first mismatch
without touching payload_size; then 4 header bytes are read, the type/size
check is made against the size table, payload_size + 4 bytes are read, and
the computed CRC is compared with the 32-bit value at buffer offset
payload_ofs + payload_size + 4 (as the source does). -/
def ReceiveMessage (buf : Buffer) (input : List Nat) (payload_size_in : Nat) : RecvResult :=
  let c0 := streamHead input
  let s0 := streamTail input
  let b0 := setByte buf 0 c0
  if c0 = sync then
    let c1 := streamHead s0
    let s1 := streamTail s0
    let b1 := setByte b0 1 c1
    if c1 = 72 then
      let c2 := streamHead s1
      let s2 := streamTail s1
      let b2 := setByte b1 2 c2
      if c2 = 50 then
        let c3 := streamHead s2
        let s3 := streamTail s2
        let b3 := setByte b2 3 c3
        if c3 = 66 then
          let b4 := fillBytes b3 message_type_ofs 4 s3
          let s4 := s3.drop 4
          let message_type := le16 b4 message_type_ofs
          let payload_size := le16 b4 payload_size_ofs
          let expected_size := size message_type
          if expected_size < 0 ∨ expected_size ≠ (payload_size : Int) then
            ⟨-1, 0, b4, s4⟩
          else
            let b5 := fillBytes b4 payload_ofs (payload_size + 4) s4
            let s5 := s4.drop (payload_size + 4)
            let crc := crc32 (payloadBytes b5 payload_size)
            let crc_in_buffer := le32 b5 (payload_ofs + payload_size + 4)
            if crc = crc_in_buffer then ⟨(message_type : Int), payload_size, b5, s5⟩
            else ⟨-1, 0, b5, s5⟩
        else ⟨-1, payload_size_in, b3, s3⟩
      else ⟨-1, payload_size_in, b2, s2⟩
    else ⟨-1, payload_size_in, b1, s1⟩
  else ⟨-1, payload_size_in, b0, s0⟩

/-- H2B::SendMessage from spine.cpp: the bytes written to the out stream are
the first payload_size + payload_ofs + 4 buffer bytes. -/
def SendMessage (buf : Buffer) (payload_size : Nat) : List Nat :=
  (List.range (payload_size + payload_ofs + 4)).map (getByte buf)

end H2B

namespace B2H

/-- B2H::size from spine.cpp: payload size table for body-to-head messages,
-1 for an unrecognized command. -/
def size (command : Nat) : Int :=
  if command = dataCharacter then 32
  else if command = updateFirmware then 32
  else if command = dataFrame then 768
  else if command = bootFrame then 0
  else if command = ack then 4
  else if command = version then 40
  else if command = validate then 0
  else -1

/-- B2H::populateHeader from spine.cpp: same as the H2B one with tag B 2 H
and the B2H size table. -/
def populateHeader (buffer : Buffer) (message_type : Nat) : Buffer × Nat :=
  let b := setByte buffer 0 0xAA
  let b := setByte b 1 66
  let b := setByte b 2 50
  let b := setByte b 3 72
  let b := writeLe16 b message_type_ofs (message_type % 65536)
  let payload_size : Nat := ((size message_type) % (2 ^ 32 : Int)).toNat
  let b := writeLe16 b payload_size_ofs (payload_size % 65536)
  (b, payload_size)

/-- B2H::DataCharacterMsg from spine.cpp: same as the H2B one over the B2H
buffer and header. -/
def DataCharacterMsg (buf : Buffer) (text : List Nat) (numBytes : Nat) : Buffer × Nat :=
  let b := (populateHeader buf dataCharacter).1
  let n := min numBytes 31
  let b := writeBytes b payload_ofs (text.take n)
  let b := setByte b (payload_ofs + n) 0
  let payload_size : Nat := (size dataCharacter).toNat
  let crc := crc32 (payloadBytes b payload_size)
  let b := writeLe32 b (payload_ofs + payload_size + 4) crc
  (b, payload_size)

/-- B2H::ReceiveMessage from spine.cpp: same state machine as the H2B one
with sync tag 0xAA B 2 H and the B2H size table. -/
def ReceiveMessage (buf : Buffer) (input : List Nat) (payload_size_in : Nat) : RecvResult :=
  let c0 := streamHead input
  let s0 := streamTail input
  let b0 := setByte buf 0 c0
  if c0 = sync then
    let c1 := streamHead s0
    let s1 := streamTail s0
    let b1 := setByte b0 1 c1
    if c1 = 66 then
      let c2 := streamHead s1
      let s2 := streamTail s1
      let b2 := setByte b1 2 c2
      if c2 = 50 then
        let c3 := streamHead s2
        let s3 := streamTail s2
        let b3 := setByte b2 3 c3
        if c3 = 72 then
          let b4 := fillBytes b3 message_type_ofs 4 s3
          let s4 := s3.drop 4
          let message_type := le16 b4 message_type_ofs
          let payload_size := le16 b4 payload_size_ofs
          let expected_size := size message_type
          if expected_size < 0 ∨ expected_size ≠ (payload_size : Int) then
            ⟨-1, 0, b4, s4⟩
          else
            let b5 := fillBytes b4 payload_ofs (payload_size + 4) s4
            let s5 := s4.drop (payload_size + 4)
            let crc := crc32 (payloadBytes b5 payload_size)
            let crc_in_buffer := le32 b5 (payload_ofs + payload_size + 4)
            if crc = crc_in_buffer then ⟨(message_type : Int), payload_size, b5, s5⟩
            else ⟨-1, 0, b5, s5⟩
        else ⟨-1, payload_size_in, b3, s3⟩
      else ⟨-1, payload_size_in, b2, s2⟩
    else ⟨-1, payload_size_in, b1, s1⟩
  else ⟨-1, payload_size_in, b0, s0⟩

/-- B2H::SendMessage from spine.cpp: the bytes written to the out stream are
the first payload_size + payload_ofs + 4 buffer bytes. -/
def SendMessage (buf : Buffer) (payload_size : Nat) : List Nat :=
  (List.range (payload_size + payload_ofs + 4)).map (getByte buf)

end B2H

/-- Result of a listener hook: the modified flag it returns, the buffer after
it ran, and the bytes it wrote to Serial. -/
structure HookResult where
  modified : Bool
  buf : Buffer
  serialOut : List Nat

/-- The process overload for Ack in listener.cpp: returns false and does not
touch the message. -/
def processAck (buf : Buffer) : HookResult := ⟨false, buf, []⟩

/-- The process overload for DataCharacter in listener.cpp: writes the text
bytes to Serial until a NUL or 32 bytes, returns false, does not touch the
message. -/
def processDataCharacter (buf : Buffer) : HookResult :=
  ⟨false, buf, (payloadBytes buf 32).takeWhile (fun c => c ≠ 0)⟩

/-- The process overload for B2HDataFrame in listener.cpp: returns false and
does not touch the message. -/
def processDataFrame (buf : Buffer) : HookResult := ⟨false, buf, []⟩

/-- processBody2Head from listener.cpp: dispatches on the message type to
the three hooks; bootFrame, updateFirmware, version, validate and the
default case break out and return false. -/
def processBody2Head (msg_type : Int) (buf : Buffer) : HookResult :=
  if msg_type = (ack : Int) then processAck buf
  else if msg_type = (dataCharacter : Int) then processDataCharacter buf
  else if msg_type = (dataFrame : Int) then processDataFrame buf
  else ⟨false, buf, []⟩

/-- Result of ReceiveAndRewriteB2HMessage: buffer after the call, unconsumed
input stream, bytes written to the out stream, bytes written to Serial. -/
structure RelayResult where
  buf : Buffer
  rest : List Nat
  out : List Nat
  serialOut : List Nat

/-- ReceiveAndRewriteB2HMessage from listener.cpp: receives (with a
payload_size variable initialized to 0), dispatches the hook, recomputes the
CRC over the payload, stores it at buffer offset payload_ofs + payload_size
+ 4, and writes the first payload_size + payload_ofs + 4 buffer bytes to the
out stream, all unconditionally. -/
def ReceiveAndRewriteB2HMessage (buf : Buffer) (input : List Nat) : RelayResult :=
  let r := B2H.ReceiveMessage buf input 0
  let h := processBody2Head r.msgType r.buf
  let crc := crc32 (payloadBytes h.buf r.payload_size)
  let b := writeLe32 h.buf (payload_ofs + r.payload_size + 4) crc
  let out := (List.range (r.payload_size + payload_ofs + 4)).map (getByte b)
  ⟨b, r.rest, out, h.serialOut⟩


/-! Failure-class predicates: the three stages of ReceiveMessage, named so
that per-class behavior can be stated.  Each mirrors the corresponding
phase of the receive state machine of spine.cpp. -/

namespace H2B

/-- The sync/tag phase of H2B::ReceiveMessage succeeds: the four bytes the
waitFor steps store are 0xAA H 2 B. -/
def tagMatch (input : List Nat) : Prop :=
  streamHead input = sync
  ∧ streamHead (streamTail input) = 72
  ∧ streamHead (streamTail (streamTail input)) = 50
  ∧ streamHead (streamTail (streamTail (streamTail input))) = 66

instance (input : List Nat) : Decidable (tagMatch input) := by
  unfold tagMatch
  infer_instance

/-- The buffer state of H2B::ReceiveMessage after the four waitFor stores
and the 4-byte header read (the state the type/size check inspects). -/
def headerBuf (buf : Buffer) (input : List Nat) : Buffer :=
  fillBytes (setByte (setByte (setByte (setByte buf 0 (streamHead input))
    1 (streamHead (streamTail input)))
    2 (streamHead (streamTail (streamTail input))))
    3 (streamHead (streamTail (streamTail (streamTail input)))))
    message_type_ofs 4 (streamTail (streamTail (streamTail (streamTail input))))

/-- The 16-bit message type H2B::ReceiveMessage reads from its buffer. -/
def parsedType (buf : Buffer) (input : List Nat) : Nat :=
  le16 (headerBuf buf input) message_type_ofs

/-- The 16-bit declared payload size H2B::ReceiveMessage reads. -/
def parsedSize (buf : Buffer) (input : List Nat) : Nat :=
  le16 (headerBuf buf input) payload_size_ofs

/-- The type/size check of H2B::ReceiveMessage fails: the type is unknown
to the table or the declared size differs from the table size. -/
def typeSizeBad (buf : Buffer) (input : List Nat) : Prop :=
  size (parsedType buf input) < 0
  ∨ size (parsedType buf input) ≠ ((parsedSize buf input : Nat) : Int)

instance (buf : Buffer) (input : List Nat) : Decidable (typeSizeBad buf input) := by
  unfold typeSizeBad
  infer_instance

/-- The buffer state of H2B::ReceiveMessage after the payload and CRC bytes
are read (the state the CRC check inspects). -/
def payloadBuf (buf : Buffer) (input : List Nat) : Buffer :=
  fillBytes (headerBuf buf input) payload_ofs (parsedSize buf input + 4)
    ((streamTail (streamTail (streamTail (streamTail input)))).drop 4)

/-- The CRC check of H2B::ReceiveMessage fails: the CRC computed over the
payload bytes differs from the 32-bit value the code reads at buffer offset
payload_ofs + payload_size + 4. -/
def crcMismatch (buf : Buffer) (input : List Nat) : Prop :=
  crc32 (payloadBytes (payloadBuf buf input) (parsedSize buf input))
    ≠ le32 (payloadBuf buf input) (payload_ofs + parsedSize buf input + 4)

instance (buf : Buffer) (input : List Nat) : Decidable (crcMismatch buf input) := by
  unfold crcMismatch
  infer_instance

end H2B

namespace B2H

/-- The sync/tag phase of B2H::ReceiveMessage succeeds: the four bytes the
waitFor steps store are 0xAA B 2 H. -/
def tagMatch (input : List Nat) : Prop :=
  streamHead input = sync
  ∧ streamHead (streamTail input) = 66
  ∧ streamHead (streamTail (streamTail input)) = 50
  ∧ streamHead (streamTail (streamTail (streamTail input))) = 72

instance (input : List Nat) : Decidable (tagMatch input) := by
  unfold tagMatch
  infer_instance

/-- The buffer state of B2H::ReceiveMessage after the four waitFor stores
and the 4-byte header read (the state the type/size check inspects). -/
def headerBuf (buf : Buffer) (input : List Nat) : Buffer :=
  fillBytes (setByte (setByte (setByte (setByte buf 0 (streamHead input))
    1 (streamHead (streamTail input)))
    2 (streamHead (streamTail (streamTail input))))
    3 (streamHead (streamTail (streamTail (streamTail input)))))
    message_type_ofs 4 (streamTail (streamTail (streamTail (streamTail input))))

/-- The 16-bit message type B2H::ReceiveMessage reads from its buffer. -/
def parsedType (buf : Buffer) (input : List Nat) : Nat :=
  le16 (headerBuf buf input) message_type_ofs

/-- The 16-bit declared payload size B2H::ReceiveMessage reads. -/
def parsedSize (buf : Buffer) (input : List Nat) : Nat :=
  le16 (headerBuf buf input) payload_size_ofs

/-- The type/size check of B2H::ReceiveMessage fails: the type is unknown
to the table or the declared size differs from the table size. -/
def typeSizeBad (buf : Buffer) (input : List Nat) : Prop :=
  size (parsedType buf input) < 0
  ∨ size (parsedType buf input) ≠ ((parsedSize buf input : Nat) : Int)

instance (buf : Buffer) (input : List Nat) : Decidable (typeSizeBad buf input) := by
  unfold typeSizeBad
  infer_instance

/-- The buffer state of B2H::ReceiveMessage after the payload and CRC bytes
are read (the state the CRC check inspects). -/
def payloadBuf (buf : Buffer) (input : List Nat) : Buffer :=
  fillBytes (headerBuf buf input) payload_ofs (parsedSize buf input + 4)
    ((streamTail (streamTail (streamTail (streamTail input)))).drop 4)

/-- The CRC check of B2H::ReceiveMessage fails: the CRC computed over the
payload bytes differs from the 32-bit value the code reads at buffer offset
payload_ofs + payload_size + 4. -/
def crcMismatch (buf : Buffer) (input : List Nat) : Prop :=
  crc32 (payloadBytes (payloadBuf buf input) (parsedSize buf input))
    ≠ le32 (payloadBuf buf input) (payload_ofs + parsedSize buf input + 4)

instance (buf : Buffer) (input : List Nat) : Decidable (crcMismatch buf input) := by
  unfold crcMismatch
  infer_instance

end B2H

/-! Helper lemmas about the byte-level primitives. -/

theorem length_setByte (b : Buffer) (i v : Nat) : (setByte b i v).length = b.length :=
  List.length_set ..

theorem getByte_setByte_self {b : Buffer} {i v : Nat} (h : i < b.length) :
    getByte (setByte b i v) i = v := by
  simp [getByte, setByte, List.getD_eq_getElem?_getD, List.getElem?_set_self h]

theorem getByte_setByte_ne {b : Buffer} {i j v : Nat} (h : j ≠ i) :
    getByte (setByte b i v) j = getByte b j := by
  simp [getByte, setByte, List.getD_eq_getElem?_getD,
    List.getElem?_set_ne (fun hij => h hij.symm)]

theorem length_fillBytes (b : Buffer) (ofs n : Nat) (s : List Nat) :
    (fillBytes b ofs n s).length = b.length := by
  induction s generalizing b ofs n with
  | nil => cases n <;> simp [fillBytes]
  | cons x s ih =>
      cases n with
      | zero => simp [fillBytes]
      | succ m => simp [fillBytes, ih, length_setByte]

theorem getByte_fillBytes_lt {b : Buffer} {ofs n j : Nat} {s : List Nat} (h : j < ofs) :
    getByte (fillBytes b ofs n s) j = getByte b j := by
  induction s generalizing b ofs n with
  | nil => cases n <;> simp [fillBytes]
  | cons x s ih =>
      cases n with
      | zero => simp [fillBytes]
      | succ m =>
          rw [fillBytes, ih (Nat.lt_succ_of_lt h), getByte_setByte_ne (Nat.ne_of_lt h)]

theorem getByte_fillBytes_ge {b : Buffer} {ofs n j : Nat} {s : List Nat} (h : ofs + n ≤ j) :
    getByte (fillBytes b ofs n s) j = getByte b j := by
  induction s generalizing b ofs n with
  | nil => cases n <;> simp [fillBytes]
  | cons x s ih =>
      cases n with
      | zero => simp [fillBytes]
      | succ m =>
          rw [fillBytes, ih (by omega), getByte_setByte_ne (by omega)]

theorem getByte_fillBytes_in {b : Buffer} {ofs n i : Nat} {s : List Nat}
    (hn : i < n) (hs : i < s.length) (hb : ofs + i < b.length) :
    getByte (fillBytes b ofs n s) (ofs + i) = s.getD i 0 % 256 := by
  induction s generalizing b ofs n i with
  | nil => simp at hs
  | cons x s ih =>
      cases n with
      | zero => omega
      | succ m =>
          cases i with
          | zero =>
              rw [fillBytes]
              simp only [Nat.add_zero]
              rw [getByte_fillBytes_lt (show ofs < ofs + 1 by omega),
                getByte_setByte_self (by simpa using hb)]
              simp
          | succ k =>
              have := @ih (setByte b ofs (x % 256)) (ofs + 1) m k
                (by omega) (by simpa using hs) (by rw [length_setByte]; omega)
              rw [fillBytes, show ofs + (k + 1) = ofs + 1 + k by omega, this]
              simp

theorem le16_fillBytes_header {b : Buffer} {ofs : Nat} {s : List Nat}
    (hb : ofs + 3 < b.length) (hs : 2 ≤ s.length) :
    le16 (fillBytes b ofs 4 s) ofs = s.getD 0 0 % 256 + 256 * (s.getD 1 0 % 256) := by
  have h0 := @getByte_fillBytes_in b ofs 4 0 s (by omega) (by omega) (by omega)
  have h1 := @getByte_fillBytes_in b ofs 4 1 s (by omega) (by omega) (by omega)
  simp only [Nat.add_zero] at h0
  rw [le16, h0, h1]

theorem length_writeLe32 (b : Buffer) (ofs v : Nat) :
    (writeLe32 b ofs v).length = b.length := by
  simp [writeLe32, length_setByte]

theorem getByte_writeLe32_lt {b : Buffer} {ofs v j : Nat} (h : j < ofs) :
    getByte (writeLe32 b ofs v) j = getByte b j := by
  rw [writeLe32, getByte_setByte_ne (by omega), getByte_setByte_ne (by omega),
    getByte_setByte_ne (by omega), getByte_setByte_ne (by omega)]

theorem getD_lt {l : List Nat} {i : Nat} (h : i < l.length) : l.getD i 0 = l.get ⟨i, h⟩ := by
  simp [List.getD_eq_getElem?_getD, List.getElem?_eq_getElem h]

theorem getD_append_lt {l1 l2 : List Nat} {i : Nat} (h : i < l1.length) :
    (l1 ++ l2).getD i 0 = l1.getD i 0 := by
  simp [List.getD_eq_getElem?_getD, List.getElem?_append_left h]

theorem getD_append_ge {l1 l2 : List Nat} {i : Nat} (h : l1.length ≤ i) :
    (l1 ++ l2).getD i 0 = l2.getD (i - l1.length) 0 := by
  simp [List.getD_eq_getElem?_getD, List.getElem?_append_right h]

/-- processBody2Head never reports a modification and never touches the
buffer, whatever the message type. -/
theorem processBody2Head_preserves (mt : Int) (buf : Buffer) :
    (processBody2Head mt buf).modified = false ∧ (processBody2Head mt buf).buf = buf := by
  unfold processBody2Head
  split_ifs <;> simp [processAck, processDataCharacter, processDataFrame]

/-! Concrete frames used to settle the claims. -/

/-- A fully valid body-to-head bootFrame wire frame: sync, tag B 2 H, type
0x6662 little-endian, size 0, empty payload, and the correct CRC trailer
(the CRC of an empty payload is 0xFFFFFFFF). -/
def validBootFrame : List Nat :=
  [0xAA, 66, 50, 72, 0x62, 0x66, 0, 0, 255, 255, 255, 255]

/-- The same frame with a corrupted CRC trailer. -/
def badTrailerBootFrame : List Nat :=
  [0xAA, 66, 50, 72, 0x62, 0x66, 0, 0, 1, 2, 3, 4]

/-- A B2H buffer state in which the four bytes at offset payload_ofs +
payload_size + 4 (= 12 for a bootFrame) happen to hold 0xFFFFFFFF. -/
def staleFFBuffer : Buffer := writeBytes initBuffer 12 [255, 255, 255, 255]

/-- C1: the claim says ReceiveMessage succeeds exactly when the computed CRC
equals the 4 little-endian bytes that follow the payload in the received
frame.  The code instead compares against the buffer bytes at offset
payload_ofs + payload_size + 4, four past where the received trailer is
stored: a fully valid bootFrame frame (trailer = CRC of empty payload =
0xFFFFFFFF) fed to a fresh zeroed buffer is rejected with the sentinel and
size 0, while the same frame with garbage trailer bytes 1 2 3 4 is accepted
whenever the stale buffer bytes at offset 12 equal the computed CRC. -/
theorem c1_crc_check_ignores_received_trailer :
    crc32 [] = 0xFFFFFFFF
    ∧ (B2H.ReceiveMessage initBuffer validBootFrame 0).msgType = -1
    ∧ (B2H.ReceiveMessage initBuffer validBootFrame 0).payload_size = 0
    ∧ (B2H.ReceiveMessage staleFFBuffer badTrailerBootFrame 0).msgType = (bootFrame : Int)
    ∧ (B2H.ReceiveMessage staleFFBuffer badTrailerBootFrame 0).payload_size = 0
    ∧ crc32 [] ≠ 1 + 256 * 2 + 65536 * 3 + 16777216 * 4 := by
  refine ⟨by decide, by decide, by decide, by decide, by decide, by decide⟩

/-- C2 counterexample: a sync-mismatch failure does not set the payload_size
output parameter to zero; with incoming value 7 and a stream whose first
byte is not the sync byte, ReceiveMessage returns the sentinel but leaves
payload_size at 7. -/
theorem c2_sync_failure_keeps_payload_size :
    (B2H.ReceiveMessage initBuffer [0] 7).msgType = -1
    ∧ (B2H.ReceiveMessage initBuffer [0] 7).payload_size = 7 := by
  exact ⟨by decide, by decide⟩

/-- C3: the claim says a failed receive causes no bytes to be written to the
outbound stream, but ReceiveAndRewriteB2HMessage never tests the receive
result: on the one-byte garbage stream the receive fails with the sentinel,
yet payload_ofs + 4 = 12 bytes are still written to the outbound stream. -/
theorem c3_relay_writes_despite_failed_receive :
    (B2H.ReceiveMessage initBuffer [0] 0).msgType = -1
    ∧ (ReceiveAndRewriteB2HMessage initBuffer [0]).out.length = payload_ofs + 4
    ∧ (ReceiveAndRewriteB2HMessage initBuffer [0]).out ≠ [] := by
  refine ⟨by decide, by decide, by decide⟩

/-- C4: the round trip fails on the code.  populateHeader for the B2H
bootFrame type yields header bytes 0xAA B 2 H, type 0x6662 LE, size 0;
feeding that header followed by the (empty) payload and the correctly
computed CRC trailer back into B2H::ReceiveMessage on a fresh buffer does
not return the same type and size: the CRC comparison reads the buffer four
bytes past the received trailer, so the frame is rejected with the sentinel
and size 0. -/
theorem c4_roundtrip_rejected_by_crc_compare :
    (List.range 8).map (getByte (B2H.populateHeader initBuffer bootFrame).1) =
      [0xAA, 66, 50, 72, 0x62, 0x66, 0, 0]
    ∧ (B2H.populateHeader initBuffer bootFrame).2 = 0
    ∧ (B2H.ReceiveMessage initBuffer
        ((List.range 8).map (getByte (B2H.populateHeader initBuffer bootFrame).1)
          ++ [255, 255, 255, 255]) 0).msgType = -1
    ∧ (B2H.ReceiveMessage initBuffer
        ((List.range 8).map (getByte (B2H.populateHeader initBuffer bootFrame).1)
          ++ [255, 255, 255, 255]) 0).payload_size = 0 := by
  refine ⟨by decide, by decide, by decide, by decide⟩

/-- C6: with a stream of one garbage byte followed by a fully valid frame,
the first call fails after consuming exactly the garbage byte, as the claim
says; but the second call on the remaining bytes does not succeed as the
claim requires: the valid frame is rejected by the misplaced CRC comparison
and the sentinel is returned instead of the frame type 0x6662. -/
theorem c6_resync_second_call_still_fails :
    (B2H.ReceiveMessage initBuffer (0 :: validBootFrame) 0).msgType = -1
    ∧ (B2H.ReceiveMessage initBuffer (0 :: validBootFrame) 0).rest = validBootFrame
    ∧ (B2H.ReceiveMessage
        ((B2H.ReceiveMessage initBuffer (0 :: validBootFrame) 0).buf)
        ((B2H.ReceiveMessage initBuffer (0 :: validBootFrame) 0).rest) 0).msgType = -1 := by
  refine ⟨by decide, by decide, by decide⟩

/-- C8: DataCharacterMsg on the text H i with length 2 returns payload size
32 and leaves the 32-byte payload H i followed by 30 zero bytes, and the
CRC of exactly those 32 bytes is computed; but it is stored at buffer offset
payload_ofs + 32 + 4 = 44, not at the CRC-trailer offset 40, which keeps its
stale value 0 (the CRC itself is nonzero). -/
theorem c8_datacharacter_crc_written_past_trailer :
    (B2H.DataCharacterMsg initBuffer [72, 105] 2).2 = 32
    ∧ payloadBytes (B2H.DataCharacterMsg initBuffer [72, 105] 2).1 32 =
        72 :: 105 :: List.replicate 30 0
    ∧ le32 (B2H.DataCharacterMsg initBuffer [72, 105] 2).1 (payload_ofs + 32 + 4) =
        crc32 (72 :: 105 :: List.replicate 30 0)
    ∧ le32 (B2H.DataCharacterMsg initBuffer [72, 105] 2).1 (payload_ofs + 32) = 0
    ∧ crc32 (72 :: 105 :: List.replicate 30 0) ≠ 0 := by
  refine ⟨by decide, by decide, by decide, by decide, by decide⟩

/-- C10: every hook of the relay is purely observational: the three process
overloads (for ack, dataCharacter and dataFrame) and the dispatching
processBody2Head all report not-modified and leave the buffer unchanged,
for every message type and buffer state. -/
theorem c10_hooks_never_modify :
    ∀ (mt : Int) (buf : Buffer),
      (processAck buf).modified = false ∧ (processAck buf).buf = buf
      ∧ (processDataCharacter buf).modified = false ∧ (processDataCharacter buf).buf = buf
      ∧ (processDataFrame buf).modified = false ∧ (processDataFrame buf).buf = buf
      ∧ (processBody2Head mt buf).modified = false ∧ (processBody2Head mt buf).buf = buf := by
  intro mt buf
  obtain ⟨h1, h2⟩ := processBody2Head_preserves mt buf
  exact ⟨rfl, rfl, rfl, rfl, rfl, rfl, h1, h2⟩

/-- Per-class behavior of B2H::ReceiveMessage: a sync/tag mismatch returns
the sentinel leaving payload_size at its incoming value; a type/size
mismatch and a CRC mismatch return the sentinel with payload_size set to 0;
when all three checks pass the parsed type and size are returned. -/
theorem B2H_receive_classes (buf : Buffer) (input : List Nat) (ps : Nat) :
    (¬ B2H.tagMatch input →
      (B2H.ReceiveMessage buf input ps).msgType = -1
      ∧ (B2H.ReceiveMessage buf input ps).payload_size = ps)
    ∧ (B2H.tagMatch input → B2H.typeSizeBad buf input →
      (B2H.ReceiveMessage buf input ps).msgType = -1
      ∧ (B2H.ReceiveMessage buf input ps).payload_size = 0)
    ∧ (B2H.tagMatch input → ¬ B2H.typeSizeBad buf input → B2H.crcMismatch buf input →
      (B2H.ReceiveMessage buf input ps).msgType = -1
      ∧ (B2H.ReceiveMessage buf input ps).payload_size = 0)
    ∧ (B2H.tagMatch input → ¬ B2H.typeSizeBad buf input → ¬ B2H.crcMismatch buf input →
      (B2H.ReceiveMessage buf input ps).msgType = ((B2H.parsedType buf input : Nat) : Int)
      ∧ (B2H.ReceiveMessage buf input ps).payload_size = B2H.parsedSize buf input) := by
  refine ⟨?_, ?_, ?_, ?_⟩
  · intro h
    simp only [B2H.tagMatch, not_and] at h
    simp only [B2H.ReceiveMessage]
    split_ifs with h0 h1 h2 h3
    all_goals first
      | exact absurd h3 (h h0 h1 h2)
      | exact ⟨rfl, rfl⟩
  · intro htag hbad
    obtain ⟨t0, t1, t2, t3⟩ := htag
    simp only [B2H.typeSizeBad, B2H.parsedType, B2H.parsedSize, B2H.headerBuf] at hbad
    simp only [B2H.ReceiveMessage]
    split_ifs
    all_goals exact ⟨rfl, rfl⟩
  · intro htag hok hcrc
    obtain ⟨t0, t1, t2, t3⟩ := htag
    simp only [B2H.typeSizeBad, B2H.parsedType, B2H.parsedSize, B2H.headerBuf] at hok
    simp only [B2H.crcMismatch, B2H.payloadBuf, B2H.parsedSize, B2H.headerBuf] at hcrc
    simp only [B2H.ReceiveMessage]
    split_ifs
    all_goals exact ⟨rfl, rfl⟩
  · intro htag hok hcrc
    obtain ⟨t0, t1, t2, t3⟩ := htag
    simp only [B2H.typeSizeBad, B2H.parsedType, B2H.parsedSize, B2H.headerBuf] at hok
    simp only [B2H.crcMismatch, B2H.payloadBuf, B2H.parsedSize, B2H.headerBuf,
      not_ne_iff] at hcrc
    simp only [B2H.ReceiveMessage]
    split_ifs
    all_goals exact ⟨rfl, rfl⟩

/-- Per-class behavior of H2B::ReceiveMessage, as for B2H. -/
theorem H2B_receive_classes (buf : Buffer) (input : List Nat) (ps : Nat) :
    (¬ H2B.tagMatch input →
      (H2B.ReceiveMessage buf input ps).msgType = -1
      ∧ (H2B.ReceiveMessage buf input ps).payload_size = ps)
    ∧ (H2B.tagMatch input → H2B.typeSizeBad buf input →
      (H2B.ReceiveMessage buf input ps).msgType = -1
      ∧ (H2B.ReceiveMessage buf input ps).payload_size = 0)
    ∧ (H2B.tagMatch input → ¬ H2B.typeSizeBad buf input → H2B.crcMismatch buf input →
      (H2B.ReceiveMessage buf input ps).msgType = -1
      ∧ (H2B.ReceiveMessage buf input ps).payload_size = 0)
    ∧ (H2B.tagMatch input → ¬ H2B.typeSizeBad buf input → ¬ H2B.crcMismatch buf input →
      (H2B.ReceiveMessage buf input ps).msgType = ((H2B.parsedType buf input : Nat) : Int)
      ∧ (H2B.ReceiveMessage buf input ps).payload_size = H2B.parsedSize buf input) := by
  refine ⟨?_, ?_, ?_, ?_⟩
  · intro h
    simp only [H2B.tagMatch, not_and] at h
    simp only [H2B.ReceiveMessage]
    split_ifs with h0 h1 h2 h3
    all_goals first
      | exact absurd h3 (h h0 h1 h2)
      | exact ⟨rfl, rfl⟩
  · intro htag hbad
    obtain ⟨t0, t1, t2, t3⟩ := htag
    simp only [H2B.typeSizeBad, H2B.parsedType, H2B.parsedSize, H2B.headerBuf] at hbad
    simp only [H2B.ReceiveMessage]
    split_ifs
    all_goals exact ⟨rfl, rfl⟩
  · intro htag hok hcrc
    obtain ⟨t0, t1, t2, t3⟩ := htag
    simp only [H2B.typeSizeBad, H2B.parsedType, H2B.parsedSize, H2B.headerBuf] at hok
    simp only [H2B.crcMismatch, H2B.payloadBuf, H2B.parsedSize, H2B.headerBuf] at hcrc
    simp only [H2B.ReceiveMessage]
    split_ifs
    all_goals exact ⟨rfl, rfl⟩
  · intro htag hok hcrc
    obtain ⟨t0, t1, t2, t3⟩ := htag
    simp only [H2B.typeSizeBad, H2B.parsedType, H2B.parsedSize, H2B.headerBuf] at hok
    simp only [H2B.crcMismatch, H2B.payloadBuf, H2B.parsedSize, H2B.headerBuf,
      not_ne_iff] at hcrc
    simp only [H2B.ReceiveMessage]
    split_ifs
    all_goals exact ⟨rfl, rfl⟩

/-- C2 (amended): in both directions, every failing ReceiveMessage call
returns the invalid-type sentinel -1, and the effect on the payload_size
output is class-specific: a type/size mismatch and a CRC mismatch set it to
0, while a sync/tag mismatch returns without writing it, leaving it at the
caller's incoming value; when all three checks pass the parsed type and size
are returned (so every failure falls in one of the three classes).  The
failure classes are therefore indistinguishable only to callers that pass
payload_size in as 0. -/
theorem c2_amended_failure_classes :
    ∀ (buf : Buffer) (input : List Nat) (ps : Nat),
      ((¬ H2B.tagMatch input →
        (H2B.ReceiveMessage buf input ps).msgType = -1
        ∧ (H2B.ReceiveMessage buf input ps).payload_size = ps)
      ∧ (H2B.tagMatch input → H2B.typeSizeBad buf input →
        (H2B.ReceiveMessage buf input ps).msgType = -1
        ∧ (H2B.ReceiveMessage buf input ps).payload_size = 0)
      ∧ (H2B.tagMatch input → ¬ H2B.typeSizeBad buf input → H2B.crcMismatch buf input →
        (H2B.ReceiveMessage buf input ps).msgType = -1
        ∧ (H2B.ReceiveMessage buf input ps).payload_size = 0)
      ∧ (H2B.tagMatch input → ¬ H2B.typeSizeBad buf input → ¬ H2B.crcMismatch buf input →
        (H2B.ReceiveMessage buf input ps).msgType = ((H2B.parsedType buf input : Nat) : Int)
        ∧ (H2B.ReceiveMessage buf input ps).payload_size = H2B.parsedSize buf input))
      ∧ ((¬ B2H.tagMatch input →
        (B2H.ReceiveMessage buf input ps).msgType = -1
        ∧ (B2H.ReceiveMessage buf input ps).payload_size = ps)
      ∧ (B2H.tagMatch input → B2H.typeSizeBad buf input →
        (B2H.ReceiveMessage buf input ps).msgType = -1
        ∧ (B2H.ReceiveMessage buf input ps).payload_size = 0)
      ∧ (B2H.tagMatch input → ¬ B2H.typeSizeBad buf input → B2H.crcMismatch buf input →
        (B2H.ReceiveMessage buf input ps).msgType = -1
        ∧ (B2H.ReceiveMessage buf input ps).payload_size = 0)
      ∧ (B2H.tagMatch input → ¬ B2H.typeSizeBad buf input → ¬ B2H.crcMismatch buf input →
        (B2H.ReceiveMessage buf input ps).msgType = ((B2H.parsedType buf input : Nat) : Int)
        ∧ (B2H.ReceiveMessage buf input ps).payload_size = B2H.parsedSize buf input)) :=
  fun buf input ps => ⟨H2B_receive_classes buf input ps, B2H_receive_classes buf input ps⟩

/-- C2 amended-claim witness, one concrete input per class on the B2H
direction: a non-sync first byte with incoming payload_size 7 (stays 7), a
valid header with the unknown type 257 (zeroed), a valid bootFrame frame
whose CRC check fails on a fresh buffer (zeroed), and the success class on a
buffer whose stale bytes satisfy the comparison. -/
theorem c2_amended_failure_classes_witness :
    ((B2H.ReceiveMessage initBuffer [0] 7).msgType = -1
      ∧ (B2H.ReceiveMessage initBuffer [0] 7).payload_size = 7)
    ∧ ((B2H.ReceiveMessage initBuffer [0xAA, 66, 50, 72, 1, 1, 0, 0] 5).msgType = -1
      ∧ (B2H.ReceiveMessage initBuffer [0xAA, 66, 50, 72, 1, 1, 0, 0] 5).payload_size = 0)
    ∧ ((B2H.ReceiveMessage initBuffer validBootFrame 3).msgType = -1
      ∧ (B2H.ReceiveMessage initBuffer validBootFrame 3).payload_size = 0)
    ∧ ((B2H.ReceiveMessage staleFFBuffer badTrailerBootFrame 9).msgType =
        ((B2H.parsedType staleFFBuffer badTrailerBootFrame : Nat) : Int)
      ∧ (B2H.ReceiveMessage staleFFBuffer badTrailerBootFrame 9).payload_size =
        B2H.parsedSize staleFFBuffer badTrailerBootFrame) :=
  ⟨(c2_amended_failure_classes initBuffer [0] 7).2.1 (by decide),
    (c2_amended_failure_classes initBuffer [0xAA, 66, 50, 72, 1, 1, 0, 0] 5).2.2.1
      (by decide) (by decide),
    (c2_amended_failure_classes initBuffer validBootFrame 3).2.2.2.1
      (by decide) (by decide) (by decide),
    (c2_amended_failure_classes staleFFBuffer badTrailerBootFrame 9).2.2.2.2
      (by decide) (by decide) (by decide)⟩

/-- The message types listed in the H2B size table. -/
def H2BTypes : List Nat :=
  [dataCharacter, dataFrame, shutdownMsg, updateFirmware, mode, version,
   lights, validate, eraseMsg]

/-- The message types listed in the B2H size table. -/
def B2HTypes : List Nat :=
  [dataCharacter, updateFirmware, dataFrame, bootFrame, ack, version, validate]

theorem H2B_size_of_not_mem {t : Nat} (h : t ∉ H2BTypes) : H2B.size t = -1 := by
  simp only [H2BTypes, List.mem_cons, List.not_mem_nil, or_false, not_or] at h
  obtain ⟨h1, h2, h3, h4, h5, h6, h7, h8, h9⟩ := h
  simp [H2B.size, h1, h2, h3, h4, h5, h6, h7, h8, h9]

theorem B2H_size_of_not_mem {t : Nat} (h : t ∉ B2HTypes) : B2H.size t = -1 := by
  simp only [B2HTypes, List.mem_cons, List.not_mem_nil, or_false, not_or] at h
  obtain ⟨h1, h2, h3, h4, h5, h6, h7⟩ := h
  simp [B2H.size, h1, h2, h3, h4, h5, h6, h7]

theorem le16_fill_at4 {b : Buffer} {s : List Nat} (hb : 7 < b.length) (hs : 2 ≤ s.length) :
    le16 (fillBytes b 4 4 s) 4 = s.getD 0 0 % 256 + 256 * (s.getD 1 0 % 256) := by
  have h0 := @getByte_fillBytes_in b 4 4 0 s (by omega) (by omega) (by omega)
  have h1 := @getByte_fillBytes_in b 4 4 1 s (by omega) (by omega) (by omega)
  simp only [Nat.add_zero] at h0
  rw [le16, show (4 : Nat) + 1 = 4 + 1 from rfl] at *
  rw [h0, h1]

theorem le16_fill_at6 {b : Buffer} {s : List Nat} (hb : 7 < b.length) (hs : 4 ≤ s.length) :
    le16 (fillBytes b 4 4 s) 6 = s.getD 2 0 % 256 + 256 * (s.getD 3 0 % 256) := by
  have h2 := @getByte_fillBytes_in b 4 4 2 s (by omega) (by omega) (by omega)
  have h3 := @getByte_fillBytes_in b 4 4 3 s (by omega) (by omega) (by omega)
  rw [le16, show (6 : Nat) = 4 + 2 from rfl, show (4 : Nat) + 2 + 1 = 4 + 3 from rfl,
    h2, h3]

/-- C5: the two size tables map exactly the claimed (type, size) pairs, and
in each direction any 16-bit type code outside that direction's table makes
ReceiveMessage reject the frame with the sentinel type and zero size, for
every declared size field, payload and CRC bytes that may follow in the
stream. -/
theorem c5_size_tables_and_unknown_type_rejection :
    (H2B.size dataCharacter = 32 ∧ H2B.size dataFrame = 64 ∧ H2B.size shutdownMsg = 0
      ∧ H2B.size updateFirmware = 1028 ∧ H2B.size mode = 0 ∧ H2B.size version = 0
      ∧ H2B.size lights = 16 ∧ H2B.size validate = 0 ∧ H2B.size eraseMsg = 0)
    ∧ (B2H.size dataCharacter = 32 ∧ B2H.size updateFirmware = 32 ∧ B2H.size dataFrame = 768
      ∧ B2H.size bootFrame = 0 ∧ B2H.size ack = 4 ∧ B2H.size version = 40
      ∧ B2H.size validate = 0)
    ∧ (∀ (t s0 s1 : Nat) (rest : List Nat) (buf : Buffer) (ps : Nat),
      buf.length = bufSize → t < 65536 → t ∉ H2BTypes →
      (H2B.ReceiveMessage buf
        (0xAA :: 72 :: 50 :: 66 :: (t % 256) :: (t / 256) :: s0 :: s1 :: rest) ps).msgType = -1
      ∧ (H2B.ReceiveMessage buf
        (0xAA :: 72 :: 50 :: 66 :: (t % 256) :: (t / 256) :: s0 :: s1 :: rest) ps).payload_size = 0)
    ∧ (∀ (t s0 s1 : Nat) (rest : List Nat) (buf : Buffer) (ps : Nat),
      buf.length = bufSize → t < 65536 → t ∉ B2HTypes →
      (B2H.ReceiveMessage buf
        (0xAA :: 66 :: 50 :: 72 :: (t % 256) :: (t / 256) :: s0 :: s1 :: rest) ps).msgType = -1
      ∧ (B2H.ReceiveMessage buf
        (0xAA :: 66 :: 50 :: 72 :: (t % 256) :: (t / 256) :: s0 :: s1 :: rest) ps).payload_size = 0) := by
  refine ⟨⟨rfl, rfl, rfl, rfl, rfl, rfl, rfl, rfl, rfl⟩,
    ⟨rfl, rfl, rfl, rfl, rfl, rfl, rfl⟩, ?_, ?_⟩
  · intro t s0 s1 rest buf ps hlen ht hmem
    have hsz := H2B_size_of_not_mem hmem
    simp only [H2B.ReceiveMessage, streamHead, streamTail, message_type_ofs,
      payload_size_ofs, payload_ofs]
    norm_num [sync]
    rw [le16_fill_at4 (by simp [length_setByte, hlen, bufSize, payload_ofs]) (by simp)]
    simp only [List.getD_cons_zero, List.getD_cons_succ]
    rw [show (t % 256) % 256 + 256 * (t / 256 % 256) = t by omega]
    simp [hsz]
  · intro t s0 s1 rest buf ps hlen ht hmem
    have hsz := B2H_size_of_not_mem hmem
    simp only [B2H.ReceiveMessage, streamHead, streamTail, message_type_ofs,
      payload_size_ofs, payload_ofs]
    norm_num [sync]
    rw [le16_fill_at4 (by simp [length_setByte, hlen, bufSize, payload_ofs]) (by simp)]
    simp only [List.getD_cons_zero, List.getD_cons_succ]
    rw [show (t % 256) % 256 + 256 * (t / 256 % 256) = t by omega]
    simp [hsz]

/-- C5 witness at the concrete type code 257 (absent from both tables), with
declared size 0 and an empty remainder, on fresh buffers. -/
theorem c5_size_tables_witness :
    ((H2B.ReceiveMessage initBuffer
        (0xAA :: 72 :: 50 :: 66 :: (257 % 256) :: (257 / 256) :: 0 :: 0 :: []) 0).msgType = -1
      ∧ (H2B.ReceiveMessage initBuffer
        (0xAA :: 72 :: 50 :: 66 :: (257 % 256) :: (257 / 256) :: 0 :: 0 :: []) 0).payload_size = 0)
    ∧ ((B2H.ReceiveMessage initBuffer
        (0xAA :: 66 :: 50 :: 72 :: (257 % 256) :: (257 / 256) :: 0 :: 0 :: []) 0).msgType = -1
      ∧ (B2H.ReceiveMessage initBuffer
        (0xAA :: 66 :: 50 :: 72 :: (257 % 256) :: (257 / 256) :: 0 :: 0 :: []) 0).payload_size = 0) :=
  ⟨c5_size_tables_and_unknown_type_rejection.2.2.1 257 0 0 [] initBuffer 0
      (by simp [initBuffer]) (by norm_num) (by decide),
    c5_size_tables_and_unknown_type_rejection.2.2.2 257 0 0 [] initBuffer 0
      (by simp [initBuffer]) (by norm_num) (by decide)⟩

/-- C9: for a message type absent from the direction's size table (size
lookup -1), populateHeader does not fail: it still writes the sync byte, the
direction tag and the type, and stores the sentinel -1 wrapped modulo 2 to
the 16 (0xFFFF) in the 16-bit size field.  Both directions. -/
theorem c9_populateHeader_unknown_type_wraps :
    ∀ (t : Nat) (buf : Buffer), t < 65536 → buf.length = bufSize →
      (H2B.size t = -1 →
        getByte (H2B.populateHeader buf t).1 0 = 0xAA
        ∧ getByte (H2B.populateHeader buf t).1 1 = 72
        ∧ getByte (H2B.populateHeader buf t).1 2 = 50
        ∧ getByte (H2B.populateHeader buf t).1 3 = 66
        ∧ le16 (H2B.populateHeader buf t).1 message_type_ofs = t
        ∧ le16 (H2B.populateHeader buf t).1 payload_size_ofs = 0xFFFF)
      ∧ (B2H.size t = -1 →
        getByte (B2H.populateHeader buf t).1 0 = 0xAA
        ∧ getByte (B2H.populateHeader buf t).1 1 = 66
        ∧ getByte (B2H.populateHeader buf t).1 2 = 50
        ∧ getByte (B2H.populateHeader buf t).1 3 = 72
        ∧ le16 (B2H.populateHeader buf t).1 message_type_ofs = t
        ∧ le16 (B2H.populateHeader buf t).1 payload_size_ofs = 0xFFFF) := by
  intro t buf ht hlen
  constructor
  · intro hsz
    have hps : ((H2B.size t) % (2 ^ 32 : Int)).toNat = 4294967295 := by rw [hsz]; decide
    simp only [H2B.populateHeader, hps, writeLe16, message_type_ofs, payload_size_ofs, le16]
    norm_num
    refine ⟨?_, ?_, ?_, ?_, ?_, ?_⟩
    all_goals simp [getByte_setByte_ne, getByte_setByte_self, length_setByte, hlen,
      bufSize, payload_ofs]
    all_goals omega
  · intro hsz
    have hps : ((B2H.size t) % (2 ^ 32 : Int)).toNat = 4294967295 := by rw [hsz]; decide
    simp only [B2H.populateHeader, hps, writeLe16, message_type_ofs, payload_size_ofs, le16]
    norm_num
    refine ⟨?_, ?_, ?_, ?_, ?_, ?_⟩
    all_goals simp [getByte_setByte_ne, getByte_setByte_self, length_setByte, hlen,
      bufSize, payload_ofs]
    all_goals omega

/-- C9 witness at the concrete unknown type code 0 on fresh buffers: both
headers carry sync, tag, type 0 and the wrapped size field 0xFFFF. -/
theorem c9_populateHeader_unknown_type_witness :
    (getByte (H2B.populateHeader initBuffer 0).1 0 = 0xAA
      ∧ getByte (H2B.populateHeader initBuffer 0).1 1 = 72
      ∧ getByte (H2B.populateHeader initBuffer 0).1 2 = 50
      ∧ getByte (H2B.populateHeader initBuffer 0).1 3 = 66
      ∧ le16 (H2B.populateHeader initBuffer 0).1 message_type_ofs = 0
      ∧ le16 (H2B.populateHeader initBuffer 0).1 payload_size_ofs = 0xFFFF)
    ∧ (getByte (B2H.populateHeader initBuffer 0).1 0 = 0xAA
      ∧ getByte (B2H.populateHeader initBuffer 0).1 1 = 66
      ∧ getByte (B2H.populateHeader initBuffer 0).1 2 = 50
      ∧ getByte (B2H.populateHeader initBuffer 0).1 3 = 72
      ∧ le16 (B2H.populateHeader initBuffer 0).1 message_type_ofs = 0
      ∧ le16 (B2H.populateHeader initBuffer 0).1 payload_size_ofs = 0xFFFF) :=
  ⟨(c9_populateHeader_unknown_type_wraps 0 initBuffer (by norm_num)
      (by simp [initBuffer])).1 (by decide),
    (c9_populateHeader_unknown_type_wraps 0 initBuffer (by norm_num)
      (by simp [initBuffer])).2 (by decide)⟩

/-- C7: relay pass-through.  For every body-to-head frame (any type t in the
table with payload size sz, any payload and trailer bytes) that
ReceiveAndRewriteB2HMessage successfully receives (the success condition is
the CRC comparison the code actually performs: the CRC of the payload must
equal the 32-bit buffer value at offset payload_ofs + sz + 4, untouched by
the receive), the hook reports not-modified, and the forwarded frame has a
payload byte-identical to the inbound payload, a CRC trailer byte-for-byte
(hence numerically) identical to the inbound trailer, and total length
sz + header length + 4. -/
theorem c7_relay_passthrough_identity :
    ∀ (t sz : Nat) (payload crcb : List Nat) (buf : Buffer),
      buf.length = bufSize → t < 65536 → sz ≤ 1028 →
      B2H.size t = (sz : Int) →
      payload.length = sz → crcb.length = 4 →
      (∀ x ∈ payload, x < 256) → (∀ x ∈ crcb, x < 256) →
      crc32 payload = le32 buf (payload_ofs + sz + 4) →
      (B2H.ReceiveMessage buf
        (0xAA :: 66 :: 50 :: 72 :: (t % 256) :: (t / 256) :: (sz % 256) :: (sz / 256)
          :: (payload ++ crcb)) 0).msgType = (t : Int)
      ∧ (B2H.ReceiveMessage buf
        (0xAA :: 66 :: 50 :: 72 :: (t % 256) :: (t / 256) :: (sz % 256) :: (sz / 256)
          :: (payload ++ crcb)) 0).payload_size = sz
      ∧ (ReceiveAndRewriteB2HMessage buf
        (0xAA :: 66 :: 50 :: 72 :: (t % 256) :: (t / 256) :: (sz % 256) :: (sz / 256)
          :: (payload ++ crcb))).out.length = sz + payload_ofs + 4
      ∧ ((ReceiveAndRewriteB2HMessage buf
        (0xAA :: 66 :: 50 :: 72 :: (t % 256) :: (t / 256) :: (sz % 256) :: (sz / 256)
          :: (payload ++ crcb))).out.drop payload_ofs).take sz = payload
      ∧ (ReceiveAndRewriteB2HMessage buf
        (0xAA :: 66 :: 50 :: 72 :: (t % 256) :: (t / 256) :: (sz % 256) :: (sz / 256)
          :: (payload ++ crcb))).out.drop (payload_ofs + sz) = crcb := by
  intro t sz payload crcb buf hlen ht hsz hsize hp hc hpb hcb hstale
  simp only [payload_ofs] at hstale ⊢
  set B4 := fillBytes (setByte (setByte (setByte (setByte buf 0 170) 1 66) 2 50) 3 72) 4 4
      (t % 256 :: t / 256 :: sz % 256 :: sz / 256 :: (payload ++ crcb)) with hB4def
  set B5 := fillBytes B4 8 (sz + 4) (payload ++ crcb) with hB5def
  have hB4len : B4.length = 1040 := by
    rw [hB4def]
    simp [length_fillBytes, length_setByte, hlen, bufSize, payload_ofs]
  have hB5get : ∀ i, i < sz + 4 → getByte B5 (8 + i) = (payload ++ crcb).getD i 0 % 256 := by
    intro i hi
    rw [hB5def]
    exact getByte_fillBytes_in hi (by simp [hp, hc]; omega) (by rw [hB4len]; omega)
  have hpay : ∀ i, i < sz → getByte B5 (8 + i) = payload.getD i 0 := by
    intro i hi
    rw [hB5get i (by omega), getD_append_lt (by omega)]
    have hlt : payload.getD i 0 < 256 := by
      rw [getD_lt (by omega)]
      exact hpb _ (payload.get_mem _ _)
    exact Nat.mod_eq_of_lt hlt
  have hcrc4 : ∀ j, j < 4 → getByte B5 (8 + (sz + j)) = crcb.getD j 0 := by
    intro j hj
    rw [hB5get (sz + j) (by omega), getD_append_ge (by omega),
      show sz + j - payload.length = j by omega]
    have hlt : crcb.getD j 0 < 256 := by
      rw [getD_lt (by omega)]
      exact hcb _ (crcb.get_mem _ _)
    exact Nat.mod_eq_of_lt hlt
  have hpayload5 : payloadBytes B5 sz = payload := by
    apply List.ext_getElem
    · simp [payloadBytes, hp]
    · intro i h1 h2
      simp only [payloadBytes, payload_ofs, List.getElem_map, List.getElem_range]
      rw [hpay i (by simpa [payloadBytes] using h1), getD_lt (by omega)]
      simp
  have hsame : ∀ j, 8 + sz + 4 ≤ j → getByte B5 j = getByte buf j := by
    intro j hj
    rw [hB5def, getByte_fillBytes_ge (by omega), hB4def, getByte_fillBytes_ge (by omega),
      getByte_setByte_ne (by omega), getByte_setByte_ne (by omega),
      getByte_setByte_ne (by omega), getByte_setByte_ne (by omega)]
  have hstale5 : le32 B5 (8 + sz + 4) = le32 buf (8 + sz + 4) := by
    simp only [le32, le16]
    rw [hsame _ (by omega), hsame _ (by omega), hsame _ (by omega), hsame _ (by omega)]
  have hrecv : B2H.ReceiveMessage buf
      (0xAA :: 66 :: 50 :: 72 :: (t % 256) :: (t / 256) :: (sz % 256) :: (sz / 256)
        :: (payload ++ crcb)) 0 = ⟨(t : Int), sz, B5, (payload ++ crcb).drop (sz + 4)⟩ := by
    simp only [B2H.ReceiveMessage, streamHead, streamTail, message_type_ofs,
      payload_size_ofs, payload_ofs]
    norm_num [sync]
    rw [le16_fill_at4 (by simp [length_setByte, hlen, bufSize, payload_ofs]) (by simp),
      le16_fill_at6 (by simp [length_setByte, hlen, bufSize, payload_ofs]) (by simp)]
    simp only [List.getD_cons_zero, List.getD_cons_succ]
    rw [show (t % 256) % 256 + 256 * (t / 256 % 256) = t by omega,
      show (sz % 256) % 256 + 256 * (sz / 256 % 256) = sz by omega, hsize]
    rw [if_neg (by omega)]
    rw [← hB4def, ← hB5def, hpayload5, hstale5, if_pos hstale]
  have hout : (ReceiveAndRewriteB2HMessage buf
      (0xAA :: 66 :: 50 :: 72 :: (t % 256) :: (t / 256) :: (sz % 256) :: (sz / 256)
        :: (payload ++ crcb))).out =
      (List.range (sz + 8 + 4)).map (getByte (writeLe32 B5 (8 + sz + 4) (crc32 payload))) := by
    simp only [ReceiveAndRewriteB2HMessage, payload_ofs]
    rw [hrecv]
    dsimp only
    rw [(processBody2Head_preserves ((t : Int)) B5).2, hpayload5]
  refine ⟨?_, ?_, ?_, ?_, ?_⟩
  · rw [hrecv]
  · rw [hrecv]
  · rw [hout]
    simp
  · rw [hout]
    apply List.ext_getElem
    · simp [hp]
    · intro i h1 h2
      have hi : i < sz := by
        simp at h1
        omega
      simp only [List.getElem_take, List.getElem_drop, List.getElem_map, List.getElem_range]
      rw [getByte_writeLe32_lt (by omega), hpay i hi, getD_lt (by omega)]
      simp
  · rw [hout]
    apply List.ext_getElem
    · simp [hc]
      omega
    · intro j h1 h2
      have hj : j < 4 := by
        simp at h1
        omega
      simp only [List.getElem_drop, List.getElem_map, List.getElem_range]
      rw [getByte_writeLe32_lt (by omega), show 8 + sz + j = 8 + (sz + j) by omega,
        hcrc4 j hj, getD_lt (by omega)]
      simp

/-- C7 witness: a bootFrame frame received on a buffer whose stale bytes at
offset 12 equal the CRC of the empty payload, so the receive succeeds; the
relay forwards 12 bytes ending in the inbound trailer. -/
theorem c7_relay_passthrough_identity_witness :
    (B2H.ReceiveMessage staleFFBuffer
      [0xAA, 66, 50, 72, 98, 102, 0, 0, 255, 255, 255, 255] 0).msgType = (bootFrame : Int)
    ∧ (B2H.ReceiveMessage staleFFBuffer
      [0xAA, 66, 50, 72, 98, 102, 0, 0, 255, 255, 255, 255] 0).payload_size = 0
    ∧ (ReceiveAndRewriteB2HMessage staleFFBuffer
      [0xAA, 66, 50, 72, 98, 102, 0, 0, 255, 255, 255, 255]).out.length = 12
    ∧ ((ReceiveAndRewriteB2HMessage staleFFBuffer
      [0xAA, 66, 50, 72, 98, 102, 0, 0, 255, 255, 255, 255]).out.drop payload_ofs).take 0 = []
    ∧ (ReceiveAndRewriteB2HMessage staleFFBuffer
      [0xAA, 66, 50, 72, 98, 102, 0, 0, 255, 255, 255, 255]).out.drop (payload_ofs + 0) =
        [255, 255, 255, 255] :=
  c7_relay_passthrough_identity bootFrame 0 [] [255, 255, 255, 255] staleFFBuffer
    (by decide) (by decide) (by decide) (by decide) (by decide) (by decide)
    (by decide) (by decide) (by decide)

end VectorSpine
